import Mathlib

/-!
# Verification of the route-to-recommendation pipeline

A shallow embedding of the core pipeline of the AI-Travel-Assist repository:
geo math and checkpoint planning (`src/lib/distance-calculator.ts`), the POI
aggregator (`src/lib/poi-service.ts`), weather suitability scoring
(the weather service), and the scoring / diversity engine
(`src/lib/geocoding-service.ts`, class `AIPOIFilter`).

Scores, coordinates of POIs, and all pipeline arithmetic are embedded over `ℚ`
(the source arithmetic is exact decimal arithmetic); the great-circle distance
and the checkpoint planner, which use trigonometric functions, are embedded
over `ℝ`.

`Math.random()` calls in the source are modelled by an explicit stream
`r : ℕ → ℚ` of sampled values; consumers index into the stream.
-/

/-- `Location` from `types.ts`: latitude/longitude plus display address.
Parametrised by the coordinate scalar: `ℝ` for the geo math, `ℚ` for the POI
pipeline. -/
structure Location (α : Type) where
  lat : α
  lng : α
  address : String
deriving DecidableEq

/-- `WeatherData` from `types.ts`. -/
structure WeatherData where
  temperature : ℚ
  condition : String
  humidity : ℚ
  windSpeed : ℚ
  icon : String
deriving DecidableEq

/-- Which route endpoint a POI is closest to (`closestTo` in `types.ts`). -/
inductive ClosestTo where
  | origin
  | destination
deriving DecidableEq

/-- `POI` from `types.ts`.  `rating` and `priceLevel` are required `number`
fields in the source; `website`, `phone`, `weather` and `closestTo` are
optional. -/
structure POI where
  id : String
  name : String
  description : String
  category : String
  location : Location ℚ
  rating : ℚ
  priceLevel : ℚ
  photos : List String
  openingHours : List String
  website : Option String
  phone : Option String
  weather : Option WeatherData
  aiScore : ℚ
  distanceFromRoute : ℚ
  closestTo : Option ClosestTo
deriving DecidableEq

/-- JavaScript truthiness of an optional string: `undefined` and the empty
string are falsy. -/
def jsTruthyStr : Option String → Bool
  | some s => s ≠ ""
  | none => false

/-- `String.prototype.toLowerCase()`: lower-case every character. -/
def strToLower (s : String) : String := String.mk (s.data.map Char.toLower)

/-- `s.includes(t)`: `t` occurs as a contiguous substring of `s`. -/
def strIncludes (s t : String) : Bool := decide (t.data <:+: s.data)

/-- `degrees.toFixed(4)` comparison bucket used by the deduplication key:
the value rounded to 4 decimal places, scaled to an integer.  ECMAScript
`toFixed` picks the closer scaled integer and the larger one on ties, i.e.
`⌊x·10^4 + 1/2⌋`. -/
def round4 (q : ℚ) : ℤ := ⌊q * 10000 + 1 / 2⌋

/-- The deduplication key of `removeDuplicatePOIs` in `poi-service.ts`:
`` `${poi.name}_${poi.location.lat.toFixed(4)}_${poi.location.lng.toFixed(4)}` ``.
The name is used verbatim (no case or whitespace normalisation); the two
`toFixed(4)` fragments are parsed back out of the string unambiguously, so the
key is modelled as the triple. -/
def poiKey (poi : POI) : String × ℤ × ℤ :=
  (poi.name, round4 poi.location.lat, round4 poi.location.lng)

/-- The loop of `removeDuplicatePOIs`: filter keeping entries whose key has
not been seen, threading the `seen` set. -/
def dedupGo : List POI → List (String × ℤ × ℤ) → List POI
  | [], _ => []
  | poi :: rest, seen =>
    if poiKey poi ∈ seen then dedupGo rest seen
    else poi :: dedupGo rest (poiKey poi :: seen)

/-- `POIService.removeDuplicatePOIs`: first occurrence of each key wins. -/
def removeDuplicatePOIs (pois : List POI) : List POI :=
  dedupGo pois []

/-- Default target categories of `generateEnhancedMockPOIs` when the caller
supplied none. -/
def defaultMockCategories : List String :=
  ["Restaurants", "Museums", "Parks", "Shopping", "Historic Sites", "Entertainment"]

/-- One synthetic POI of `generateEnhancedMockPOIs`.  The string tables for
names/descriptions/addresses are abstracted into category-derived strings
(they carry no pipeline semantics); the numeric fields follow the source
formulas, with `r` the `Math.random()` stream and `base` the sampling
position. -/
def mkMockPOI (location : Location ℚ) (category : String) (r : ℕ → ℚ) (base : ℕ) : POI :=
  { id := "mock_" ++ toString base
    name := category ++ " Mock " ++ toString base
    description := "An interesting local attraction worth visiting."
    category := category
    location :=
      { lat := location.lat + (r (base + 1) - 1 / 2) * (2 / 100)
        lng := location.lng + (r (base + 2) - 1 / 2) * (2 / 100)
        address := toString base ++ " Main St" }
    rating := (⌊(r (base + 3) * 2 + 3) * 10 + 1 / 2⌋ : ℚ) / 10
    priceLevel := 2 + (Int.toNat ⌊r (base + 4) * 3⌋ % 3 : ℚ)
    photos := ["/placeholder-interior.svg", "/placeholder-exterior.svg"]
    openingHours := ["Daily: 9:00 AM - 6:00 PM"]
    website := some ("https://example.com/" ++ toString base)
    phone := some ("+1-555-" ++ toString base)
    weather := none
    aiScore := r (base + 5)
    distanceFromRoute := r (base + 6) * 5
    closestTo := none }

/-- `POIService.generateEnhancedMockPOIs`: for every target category emit
`Math.floor(Math.random() * 4) + 2` (between 2 and 5) synthetic POIs. -/
def generateEnhancedMockPOIs (location : Location ℚ) (categories : List String)
    (r : ℕ → ℚ) : List POI :=
  let targetCategories := if categories.isEmpty then defaultMockCategories else categories
  targetCategories.enum.flatMap fun ci =>
    let poisInCategory := Int.toNat ⌊r (100 * ci.1) * 4⌋ % 4 + 2
    (List.range poisInCategory).map fun i => mkMockPOI location ci.2 r (100 * ci.1 + 10 * i)

/-- A POI source outcome as seen by `searchPOIsNearLocation`: the `try` block
around each source call turns a thrown error into an empty contribution. -/
def sourceContribution : Except String (List POI) → List POI
  | .ok pois => pois
  | .error _ => []

/-- `POIService.searchPOIsNearLocation`, parametrised by the outcome of the
three external source calls (SerpApi, Overpass, Foursquare) and the random
stream used by the mock fallback: concatenate the surviving contributions in
source order, fall back to synthetic POIs when the pool is empty, deduplicate,
truncate to 20. -/
def searchPOIsNearLocation (location : Location ℚ) (categories : List String)
    (serp osm foursquare : Except String (List POI)) (r : ℕ → ℚ) : List POI :=
  let allPOIs := sourceContribution serp ++ sourceContribution osm ++
    sourceContribution foursquare
  let pool := if allPOIs.isEmpty then generateEnhancedMockPOIs location categories r
    else allPOIs
  (removeDuplicatePOIs pool).take 20

/-- The condition table of `WeatherService.getWeatherSuitabilityScore`.  The
source looks up `conditionScores[weather.condition] || 0.5`; no table entry is
`0`, so the JavaScript falsy-default is exactly a lookup default. -/
def conditionScore (condition : String) : ℚ :=
  match condition with
  | "Clear" => 1.0
  | "Sunny" => 1.0
  | "Partly Cloudy" => 0.9
  | "Cloudy" => 0.7
  | "Overcast" => 0.6
  | "Light Rain" => 0.4
  | "Rain" => 0.2
  | "Heavy Rain" => 0.1
  | "Snow" => 0.3
  | "Thunderstorm" => 0.1
  | _ => 0.5

/-- `WeatherService.getWeatherSuitabilityScore`: start at 1.0, apply the
three-step temperature penalty, the condition factor and the wind penalty,
then clamp to `[0, 1]`. -/
def getWeatherSuitabilityScore (weather : WeatherData) : ℚ :=
  let score : ℚ := 1.0
  let score :=
    if weather.temperature < 5 ∨ 35 < weather.temperature then score * 0.3
    else if weather.temperature < 10 ∨ 30 < weather.temperature then score * 0.6
    else if weather.temperature < 15 ∨ 28 < weather.temperature then score * 0.8
    else score
  let score := score * conditionScore weather.condition
  let score :=
    if 40 < weather.windSpeed then score * 0.3
    else if 25 < weather.windSpeed then score * 0.7
    else score
  max 0 (min 1 score)

/-- Time-of-day buckets of `AIFilteringCriteria`. -/
inductive TimeOfDay where
  | morning
  | afternoon
  | evening
  | night
deriving DecidableEq

/-- Season buckets of `AIFilteringCriteria`. -/
inductive Season where
  | spring
  | summer
  | fall
  | winter
deriving DecidableEq

/-- Travel styles of `AIFilteringCriteria`. -/
inductive TravelStyle where
  | adventure
  | relaxed
  | cultural
  | family
  | business
deriving DecidableEq

/-- `AIFilteringCriteria` from `AIPOIFilter`. -/
structure AIFilteringCriteria where
  userPreferences : List String
  weatherConditions : WeatherData
  timeOfDay : TimeOfDay
  seasonality : Season
  travelStyle : TravelStyle

/-- `RouteInput` from `types.ts` (fields `from`/`to` are renamed
`origin`/`destination`; `from` is a Lean keyword).  `buildFilteringCriteria`
reads a `weather` property off the route input even though the declared
interface lacks it, so it is embedded as an optional field. -/
structure RouteInput where
  origin : Location ℝ
  destination : Location ℝ
  departureTime : ℝ
  preferences : List String
  weather : Option WeatherData

/-- `RouteCheckpoint` from `types.ts`: a sampled location, its cumulative
distance from the origin (km) and the estimated arrival time (milliseconds
since the epoch, as in `Date.getTime()`). -/
structure RouteCheckpoint where
  location : Location ℝ
  distanceFromStart : ℝ
  estimatedTime : ℝ

/-- `AIPOIFilter.getDefaultWeather`. -/
def getDefaultWeather : WeatherData :=
  { temperature := 20, condition := "Clear", humidity := 50, windSpeed := 10, icon := "sun" }

/-- The keyword table of `AIPOIFilter.inferTravelStyle`, in object insertion
order. -/
def styleKeywords : List (TravelStyle × List String) :=
  [(.adventure, ["outdoor", "hiking", "adventure", "sports", "nature"]),
   (.cultural, ["museum", "art", "history", "culture", "heritage"]),
   (.relaxed, ["coffee", "park", "scenic", "garden", "spa"]),
   (.family, ["family", "kids", "children", "playground", "zoo"]),
   (.business, ["business", "conference", "meeting", "hotel"])]

/-- `AIPOIFilter.inferTravelStyle`: first style whose keyword list meets the
lowercased preferences, else `relaxed`. -/
def inferTravelStyle (preferences : List String) : TravelStyle :=
  let lowerPrefs := preferences.map strToLower
  match styleKeywords.find? (fun sk =>
    sk.2.any fun keyword => lowerPrefs.any fun pref => strIncludes pref keyword) with
  | some sk => sk.1
  | none => .relaxed

/-- `AIPOIFilter.buildFilteringCriteria`; `hour` and `month` (0-based, as in
JavaScript `Date`) stand for `currentTime.getHours()` / `.getMonth()`. -/
def buildFilteringCriteria (routeInput : RouteInput) (hour month : ℕ) : AIFilteringCriteria :=
  let timeOfDay : TimeOfDay :=
    if 6 ≤ hour ∧ hour < 12 then .morning
    else if 12 ≤ hour ∧ hour < 17 then .afternoon
    else if 17 ≤ hour ∧ hour < 22 then .evening
    else .night
  let seasonality : Season :=
    if 2 ≤ month ∧ month ≤ 4 then .spring
    else if 5 ≤ month ∧ month ≤ 7 then .summer
    else if 8 ≤ month ∧ month ≤ 10 then .fall
    else .winter
  { userPreferences := routeInput.preferences
    weatherConditions := routeInput.weather.getD getDefaultWeather
    timeOfDay := timeOfDay
    seasonality := seasonality
    travelStyle := inferTravelStyle routeInput.preferences }

/-- The `categoryWeatherSensitivity` table of
`AIPOIFilter.calculateWeatherSuitability`; the source applies `|| 0.5` to the
lookup and no entry is `0`, so unmapped categories take 0.5. -/
def categoryWeatherSensitivity (category : String) : ℚ :=
  match category with
  | "Parks" => 1.0
  | "Outdoor Activities" => 1.0
  | "Scenic Views" => 0.9
  | "Local Markets" => 0.8
  | "Shopping" => 0.3
  | "Museums" => 0.2
  | "Restaurants" => 0.4
  | "Entertainment" => 0.3
  | "Historic Sites" => 0.6
  | "Art Galleries" => 0.2
  | "Coffee Shops" => 0.3
  | "Nightlife" => 0.1
  | _ => 0.5

/-- `AIPOIFilter.calculateWeatherSuitability`: 0.7 when the POI carries no
weather snapshot, otherwise a sensitivity blend of the suitability of the
`weather` argument (the criteria's route-level weather — NOT the POI's own
snapshot, which is only tested for presence). -/
def calculateWeatherSuitability (poi : POI) (weather : WeatherData) : ℚ :=
  match poi.weather with
  | none => 0.7
  | some _ =>
    let baseWeatherScore := getWeatherSuitabilityScore weather
    let sensitivity := categoryWeatherSensitivity poi.category
    sensitivity * baseWeatherScore + (1 - sensitivity) * 0.8

/-- The `semanticMappings` concept table of
`AIPOIFilter.calculateSemanticMatch`, in object insertion order. -/
def semanticMappings : List (String × List String) :=
  [("food", ["Restaurants", "Coffee Shops", "Local Markets"]),
   ("culture", ["Museums", "Art Galleries", "Historic Sites"]),
   ("nature", ["Parks", "Scenic Views", "Outdoor Activities"]),
   ("shopping", ["Shopping", "Local Markets"]),
   ("entertainment", ["Entertainment", "Nightlife"]),
   ("history", ["Historic Sites", "Museums"]),
   ("art", ["Art Galleries", "Museums"]),
   ("outdoor", ["Parks", "Outdoor Activities", "Scenic Views"]),
   ("dining", ["Restaurants", "Coffee Shops"]),
   ("nightlife", ["Nightlife", "Entertainment"]),
   ("family", ["Parks", "Museums", "Entertainment"]),
   ("adventure", ["Outdoor Activities", "Scenic Views"]),
   ("relaxation", ["Parks", "Coffee Shops", "Scenic Views"])]

/-- `AIPOIFilter.calculateSemanticMatch`: 0.7 for a concept-table hit on the
POI category, else 0.5 when the preference text occurs in the POI's
name/description, else 0. -/
def calculateSemanticMatch (poi : POI) (preference : String) : ℚ :=
  let lowerPreference := strToLower preference
  if semanticMappings.any (fun m =>
      (strIncludes lowerPreference m.1 || strIncludes m.1 lowerPreference) &&
      m.2.contains poi.category) then 0.7
  else if strIncludes (strToLower (poi.name ++ " " ++ poi.description)) lowerPreference then 0.5
  else 0

/-- The per-preference accumulation loop of
`AIPOIFilter.calculatePreferenceMatch`: 1 for a direct substring category
match, else the semantic score. -/
def prefMatchScore (poi : POI) : List String → ℚ
  | [] => 0
  | preference :: rest =>
    (if strIncludes (strToLower poi.category) (strToLower preference) then 1
     else calculateSemanticMatch poi preference) + prefMatchScore poi rest

/-- `AIPOIFilter.calculatePreferenceMatch`: neutral 0.6 with no preferences,
else the per-preference average capped at 1. -/
def calculatePreferenceMatch (poi : POI) (preferences : List String) : ℚ :=
  if preferences.isEmpty then 0.6
  else min 1 (prefMatchScore poi preferences / preferences.length)

/-- The nested `timePreferences` tables of
`AIPOIFilter.calculateTimeRelevance`; the source applies `|| 0.5` to the
lookup and no entry is `0`, so unlisted categories take 0.5. -/
def timePreferences (timeOfDay : TimeOfDay) (category : String) : ℚ :=
  match timeOfDay with
  | .morning =>
    match category with
    | "Coffee Shops" => 1.0
    | "Parks" => 0.9
    | "Museums" => 0.8
    | "Historic Sites" => 0.8
    | "Restaurants" => 0.6
    | "Shopping" => 0.7
    | "Nightlife" => 0.1
    | _ => 0.5
  | .afternoon =>
    match category with
    | "Restaurants" => 1.0
    | "Shopping" => 0.9
    | "Museums" => 0.9
    | "Parks" => 0.8
    | "Art Galleries" => 0.9
    | "Local Markets" => 0.8
    | "Coffee Shops" => 0.7
    | "Nightlife" => 0.2
    | _ => 0.5
  | .evening =>
    match category with
    | "Restaurants" => 1.0
    | "Entertainment" => 0.9
    | "Nightlife" => 0.8
    | "Scenic Views" => 0.7
    | "Coffee Shops" => 0.6
    | "Shopping" => 0.4
    | "Museums" => 0.3
    | _ => 0.5
  | .night =>
    match category with
    | "Nightlife" => 1.0
    | "Entertainment" => 0.8
    | "Restaurants" => 0.6
    | "Coffee Shops" => 0.3
    | "Museums" => 0.1
    | "Parks" => 0.2
    | "Shopping" => 0.1
    | _ => 0.5

/-- `AIPOIFilter.calculateTimeRelevance`. -/
def calculateTimeRelevance (poi : POI) (timeOfDay : TimeOfDay) : ℚ :=
  timePreferences timeOfDay poi.category

/-- The nested `seasonalPreferences` tables of
`AIPOIFilter.calculateSeasonalRelevance`; the source applies `|| 0.7` to the
lookup and no entry is `0`, so unlisted categories take 0.7. -/
def seasonalPreferences (season : Season) (category : String) : ℚ :=
  match season with
  | .spring =>
    match category with
    | "Parks" => 1.0
    | "Outdoor Activities" => 0.9
    | "Scenic Views" => 0.9
    | "Local Markets" => 0.8
    | "Museums" => 0.7
    | "Restaurants" => 0.8
    | _ => 0.7
  | .summer =>
    match category with
    | "Parks" => 1.0
    | "Outdoor Activities" => 1.0
    | "Scenic Views" => 1.0
    | "Local Markets" => 0.9
    | "Entertainment" => 0.8
    | "Restaurants" => 0.9
    | _ => 0.7
  | .fall =>
    match category with
    | "Scenic Views" => 1.0
    | "Parks" => 0.9
    | "Museums" => 0.9
    | "Art Galleries" => 0.9
    | "Historic Sites" => 0.8
    | "Coffee Shops" => 0.8
    | _ => 0.7
  | .winter =>
    match category with
    | "Museums" => 1.0
    | "Art Galleries" => 1.0
    | "Shopping" => 0.9
    | "Restaurants" => 0.9
    | "Entertainment" => 0.8
    | "Coffee Shops" => 0.9
    | "Parks" => 0.4
    | "Outdoor Activities" => 0.3
    | _ => 0.7

/-- `AIPOIFilter.calculateSeasonalRelevance`. -/
def calculateSeasonalRelevance (poi : POI) (season : Season) : ℚ :=
  seasonalPreferences season poi.category

/-- `AIPOIFilter.calculatePopularityScore`.  The source guards the rating and
price-level contributions with JavaScript truthiness (`if (poi.rating)`,
`if (poi.priceLevel)`), so a value of `0` falls back to the same default as a
missing value. -/
def calculatePopularityScore (poi : POI) : ℚ :=
  let ratingScore : ℚ := if poi.rating ≠ 0 then poi.rating / 5.0 * 0.6 else 0.3
  let priceScore : ℚ :=
    if poi.priceLevel ≠ 0 then
      (if poi.priceLevel = 2 ∨ poi.priceLevel = 3 then 1.0 else 0.7) * 0.2
    else 0.14
  let bonusScore : ℚ :=
    (if jsTruthyStr poi.website then 0.3 else 0) +
    (if jsTruthyStr poi.phone then 0.3 else 0) +
    (if 1 < poi.photos.length then 0.2 else 0) +
    (if poi.openingHours ≠ [] then 0.2 else 0)
  min 1.0 (ratingScore + priceScore + min 1.0 bonusScore * 0.2)

/-- `AIPOIFilter.calculateAccessibilityScore`: base 0.7, minus a capped
distance penalty, plus contact-information bonuses, clamped to `[0, 1]`. -/
def calculateAccessibilityScore (poi : POI) : ℚ :=
  let score : ℚ := 0.7
  let score :=
    if poi.distanceFromRoute ≠ 0 then score - min 0.3 (poi.distanceFromRoute / 10)
    else score
  let score := score + (if jsTruthyStr poi.phone then 0.1 else 0)
  let score := score + (if jsTruthyStr poi.website then 0.1 else 0)
  let score := score + (if poi.openingHours ≠ [] then 0.1 else 0)
  max 0 (min 1 score)

/-- The six named sub-scores of a `ScoredPOI` (also reused as the shape of the
`weights` object of `scorePOI`). -/
structure ScoreBreakdown where
  weatherSuitability : ℚ
  preferenceMatch : ℚ
  timeRelevance : ℚ
  seasonalRelevance : ℚ
  popularityScore : ℚ
  accessibilityScore : ℚ
deriving DecidableEq

/-- The `weights` object of `AIPOIFilter.scorePOI`. -/
def scoreWeights : ScoreBreakdown :=
  { weatherSuitability := 0.25
    preferenceMatch := 0.3
    timeRelevance := 0.15
    seasonalRelevance := 0.1
    popularityScore := 0.15
    accessibilityScore := 0.05 }

/-- `ScoredPOI`: the POI (with `aiScore` now populated) plus breakdown and
recommendation sentence. -/
structure ScoredPOI extends POI where
  scoreBreakdown : ScoreBreakdown
  aiRecommendationReason : String
deriving DecidableEq

/-- `JavaScript Math.round`: round half toward positive infinity. -/
def jsRound (q : ℚ) : ℤ := ⌊q + 1 / 2⌋

/-- `Math.round(aiScore * 100) / 100`: round to two decimal places. -/
def round2 (q : ℚ) : ℚ := (jsRound (q * 100) : ℚ) / 100

/-- Display names of the time-of-day buckets (used in recommendation text). -/
def timeOfDayText : TimeOfDay → String
  | .morning => "morning"
  | .afternoon => "afternoon"
  | .evening => "evening"
  | .night => "night"

/-- Display names of the season buckets (used in recommendation text). -/
def seasonText : Season → String
  | .spring => "spring"
  | .summer => "summer"
  | .fall => "fall"
  | .winter => "winter"

/-- `AIPOIFilter.generateRecommendationReason`: threshold-gated phrases joined
into one sentence, with a generic fallback. -/
def generateRecommendationReason (poi : POI) (scores : ScoreBreakdown)
    (criteria : AIFilteringCriteria) : String :=
  let reasons : List String :=
    (if 0.8 < scores.weatherSuitability then
      ["perfect weather conditions for " ++ strToLower poi.category]
     else if scores.weatherSuitability < 0.4 then
      ["indoor alternative due to " ++ strToLower criteria.weatherConditions.condition]
     else []) ++
    (if 0.8 < scores.preferenceMatch then
      ["matches your interest in " ++
        strToLower (String.intercalate " and " criteria.userPreferences)]
     else []) ++
    (if 0.8 < scores.timeRelevance then
      ["ideal for " ++ timeOfDayText criteria.timeOfDay ++ " visits"]
     else []) ++
    (if 0.8 < scores.popularityScore ∧ poi.rating ≠ 0 ∧ 4.5 ≤ poi.rating then
      ["highly rated (" ++ toString poi.rating ++ "/5.0) local favorite"]
     else []) ++
    (if 0.8 < scores.seasonalRelevance then
      ["especially beautiful during " ++ seasonText criteria.seasonality]
     else [])
  let reasons :=
    if reasons.isEmpty then ["interesting " ++ strToLower poi.category ++ " along your route"]
    else reasons
  match reasons with
  | [r] => "Recommended for " ++ r ++ "."
  | [r1, r2] => "Recommended for " ++ r1 ++ " and " ++ r2 ++ "."
  | rs =>
    "Recommended for " ++ String.intercalate ", " rs.dropLast ++ ", and " ++
      (rs.getLast?.getD "") ++ "."

/-- `AIPOIFilter.scorePOI`: compute the six sub-scores, combine them with the
fixed weights, round to two decimals, attach breakdown and reason. -/
def scorePOI (poi : POI) (criteria : AIFilteringCriteria) : ScoredPOI :=
  let weatherSuitability := calculateWeatherSuitability poi criteria.weatherConditions
  let preferenceMatch := calculatePreferenceMatch poi criteria.userPreferences
  let timeRelevance := calculateTimeRelevance poi criteria.timeOfDay
  let seasonalRelevance := calculateSeasonalRelevance poi criteria.seasonality
  let popularityScore := calculatePopularityScore poi
  let accessibilityScore := calculateAccessibilityScore poi
  let aiScore :=
    weatherSuitability * scoreWeights.weatherSuitability +
    preferenceMatch * scoreWeights.preferenceMatch +
    timeRelevance * scoreWeights.timeRelevance +
    seasonalRelevance * scoreWeights.seasonalRelevance +
    popularityScore * scoreWeights.popularityScore +
    accessibilityScore * scoreWeights.accessibilityScore
  let breakdown : ScoreBreakdown :=
    { weatherSuitability := weatherSuitability
      preferenceMatch := preferenceMatch
      timeRelevance := timeRelevance
      seasonalRelevance := seasonalRelevance
      popularityScore := popularityScore
      accessibilityScore := accessibilityScore }
  { poi with
    aiScore := round2 aiScore
    scoreBreakdown := breakdown
    aiRecommendationReason := generateRecommendationReason poi breakdown criteria }

/-- The admission loop of `AIPOIFilter.applyDiversityFiltering`: `counts` is
the per-category admission tally, `n` the number already accepted; a POI is
admitted while its category is below 3, and the walk stops once 15 are
accepted. -/
def diversityGo : List ScoredPOI → (String → ℕ) → ℕ → List ScoredPOI
  | [], _, _ => []
  | poi :: rest, counts, n =>
    if counts poi.category < 3 then
      poi ::
        (if 15 ≤ n + 1 then []
         else diversityGo rest
           (fun c => if c = poi.category then counts c + 1 else counts c) (n + 1))
    else
      if 15 ≤ n then [] else diversityGo rest counts n

/-- `AIPOIFilter.applyDiversityFiltering`: at most 3 per category, at most 15
in total, input order preserved. -/
def applyDiversityFiltering (scoredPOIs : List ScoredPOI) : List ScoredPOI :=
  diversityGo scoredPOIs (fun _ => 0) 0

/-- `toRadians` from `distance-calculator.ts`: `degrees * (Math.PI / 180)`. -/
noncomputable def toRadians (degrees : ℝ) : ℝ := degrees * (Real.pi / 180)

/-- JavaScript `Math.atan2(y, x)` (signed zeros aside). -/
noncomputable def atan2 (y x : ℝ) : ℝ :=
  if 0 < x then Real.arctan (y / x)
  else if x < 0 then
    (if 0 ≤ y then Real.arctan (y / x) + Real.pi else Real.arctan (y / x) - Real.pi)
  else if 0 < y then Real.pi / 2
  else if y < 0 then -(Real.pi / 2)
  else 0

/-- `DistanceCalculator.calculateDistance`: haversine distance with Earth
radius 6371 km (the same formula is duplicated verbatim inside
`RouteOrchestrator`). -/
noncomputable def calculateDistance (lat1 lng1 lat2 lng2 : ℝ) : ℝ :=
  let dLat := toRadians (lat2 - lat1)
  let dLng := toRadians (lng2 - lng1)
  let a :=
    Real.sin (dLat / 2) * Real.sin (dLat / 2) +
    Real.cos (toRadians lat1) * Real.cos (toRadians lat2) *
      Real.sin (dLng / 2) * Real.sin (dLng / 2)
  let c := 2 * atan2 (Real.sqrt a) (Real.sqrt (1 - a))
  6371 * c

/-- `RouteOrchestrator.calculateDistance` on `Location` values. -/
noncomputable def routeDistance (a b : Location ℝ) : ℝ :=
  calculateDistance a.lat a.lng b.lat b.lng

/-- The checkpoint count of `RouteOrchestrator.generateRouteCheckpoints`:
`Math.max(2, Math.floor(distance / CHECKPOINT_INTERVAL_KM))` with the 50 km
interval. -/
noncomputable def numberOfCheckpoints (routeInput : RouteInput) : ℕ :=
  max 2 (Int.toNat ⌊routeDistance routeInput.origin routeInput.destination / 50⌋)

/-- The body of the checkpoint loop of
`RouteOrchestrator.generateRouteCheckpoints` at index `i`: linear
interpolation of the coordinates at progress `i / (count - 1)`, cumulative
distance `progress * distance`, and arrival time at 80 km/h (times are
milliseconds since the epoch, as in JavaScript `Date.getTime()`). -/
noncomputable def mkCheckpoint (routeInput : RouteInput) (i : ℕ) : RouteCheckpoint :=
  let distance := routeDistance routeInput.origin routeInput.destination
  let progress : ℝ := (i : ℝ) / ((numberOfCheckpoints routeInput : ℝ) - 1)
  { location :=
      { lat := routeInput.origin.lat +
          (routeInput.destination.lat - routeInput.origin.lat) * progress
        lng := routeInput.origin.lng +
          (routeInput.destination.lng - routeInput.origin.lng) * progress
        address := "Checkpoint " ++ toString (i + 1) }
    distanceFromStart := progress * distance
    estimatedTime := routeInput.departureTime + progress * distance / 80 * (60 * 60 * 1000) }

/-- `RouteOrchestrator.generateRouteCheckpoints`. -/
noncomputable def generateRouteCheckpoints (routeInput : RouteInput) : List RouteCheckpoint :=
  (List.range (numberOfCheckpoints routeInput)).map (mkCheckpoint routeInput)

/-! ## Bounds on the individual sub-scores -/

theorem conditionScore_nonneg (condition : String) : 0 ≤ conditionScore condition := by
  unfold conditionScore
  split <;> norm_num

theorem conditionScore_le_one (condition : String) : conditionScore condition ≤ 1 := by
  unfold conditionScore
  split <;> norm_num

theorem getWeatherSuitabilityScore_nonneg (weather : WeatherData) :
    0 ≤ getWeatherSuitabilityScore weather :=
  le_max_left _ _

theorem getWeatherSuitabilityScore_le_one (weather : WeatherData) :
    getWeatherSuitabilityScore weather ≤ 1 :=
  max_le (by norm_num) (min_le_left _ _)

theorem categoryWeatherSensitivity_nonneg (category : String) :
    0 ≤ categoryWeatherSensitivity category := by
  unfold categoryWeatherSensitivity
  split <;> norm_num

theorem categoryWeatherSensitivity_le_one (category : String) :
    categoryWeatherSensitivity category ≤ 1 := by
  unfold categoryWeatherSensitivity
  split <;> norm_num

theorem calculateWeatherSuitability_nonneg (poi : POI) (weather : WeatherData) :
    0 ≤ calculateWeatherSuitability poi weather := by
  unfold calculateWeatherSuitability
  cases poi.weather with
  | none => norm_num
  | some w =>
    have h0 := categoryWeatherSensitivity_nonneg poi.category
    have h1 := categoryWeatherSensitivity_le_one poi.category
    have h2 := getWeatherSuitabilityScore_nonneg weather
    have h3 := getWeatherSuitabilityScore_le_one weather
    simp only
    nlinarith

theorem calculateWeatherSuitability_le_one (poi : POI) (weather : WeatherData) :
    calculateWeatherSuitability poi weather ≤ 1 := by
  unfold calculateWeatherSuitability
  cases poi.weather with
  | none => norm_num
  | some w =>
    have h0 := categoryWeatherSensitivity_nonneg poi.category
    have h1 := categoryWeatherSensitivity_le_one poi.category
    have h2 := getWeatherSuitabilityScore_nonneg weather
    have h3 := getWeatherSuitabilityScore_le_one weather
    simp only
    nlinarith

theorem calculateSemanticMatch_nonneg (poi : POI) (preference : String) :
    0 ≤ calculateSemanticMatch poi preference := by
  simp only [calculateSemanticMatch]
  split_ifs <;> norm_num

theorem calculateSemanticMatch_le_one (poi : POI) (preference : String) :
    calculateSemanticMatch poi preference ≤ 1 := by
  simp only [calculateSemanticMatch]
  split_ifs <;> norm_num

theorem prefMatchScore_nonneg (poi : POI) (preferences : List String) :
    0 ≤ prefMatchScore poi preferences := by
  induction preferences with
  | nil => simp [prefMatchScore]
  | cons preference rest ih =>
    have h : (0 : ℚ) ≤
        (if strIncludes (strToLower poi.category) (strToLower preference) then 1
         else calculateSemanticMatch poi preference) := by
      split_ifs with h
      · norm_num
      · exact calculateSemanticMatch_nonneg poi preference
    unfold prefMatchScore
    exact add_nonneg h ih

theorem calculatePreferenceMatch_nonneg (poi : POI) (preferences : List String) :
    0 ≤ calculatePreferenceMatch poi preferences := by
  unfold calculatePreferenceMatch
  split_ifs with h
  · norm_num
  · exact le_min (by norm_num)
      (div_nonneg (prefMatchScore_nonneg poi preferences) (by positivity))

theorem calculatePreferenceMatch_le_one (poi : POI) (preferences : List String) :
    calculatePreferenceMatch poi preferences ≤ 1 := by
  unfold calculatePreferenceMatch
  split_ifs with h
  · norm_num
  · exact min_le_left _ _

theorem timePreferences_nonneg (timeOfDay : TimeOfDay) (category : String) :
    0 ≤ timePreferences timeOfDay category := by
  cases timeOfDay <;> (simp only [timePreferences]; split <;> norm_num)

theorem timePreferences_le_one (timeOfDay : TimeOfDay) (category : String) :
    timePreferences timeOfDay category ≤ 1 := by
  cases timeOfDay <;> (simp only [timePreferences]; split <;> norm_num)

theorem seasonalPreferences_nonneg (season : Season) (category : String) :
    0 ≤ seasonalPreferences season category := by
  cases season <;> (simp only [seasonalPreferences]; split <;> norm_num)

theorem seasonalPreferences_le_one (season : Season) (category : String) :
    seasonalPreferences season category ≤ 1 := by
  cases season <;> (simp only [seasonalPreferences]; split <;> norm_num)

theorem calculatePopularityScore_nonneg (poi : POI) (hrating : 0 ≤ poi.rating) :
    0 ≤ calculatePopularityScore poi := by
  unfold calculatePopularityScore
  simp only
  split_ifs <;> · positivity

theorem calculatePopularityScore_le_one (poi : POI) :
    calculatePopularityScore poi ≤ 1 :=
  le_trans (min_le_left _ _) (by norm_num)

theorem calculateAccessibilityScore_nonneg (poi : POI) :
    0 ≤ calculateAccessibilityScore poi :=
  le_max_left _ _

theorem calculateAccessibilityScore_le_one (poi : POI) :
    calculateAccessibilityScore poi ≤ 1 :=
  max_le (by norm_num) (min_le_left _ _)

/-! ## Rounding -/

theorem jsRound_nonneg (q : ℚ) (h : 0 ≤ q) : 0 ≤ jsRound q := by
  unfold jsRound
  exact Int.le_floor.mpr (by push_cast; linarith)

theorem round2_nonneg (q : ℚ) (h : 0 ≤ q) : 0 ≤ round2 q := by
  unfold round2
  have := jsRound_nonneg (q * 100) (by positivity)
  positivity

theorem round2_le_one (q : ℚ) (h : q ≤ 1) : round2 q ≤ 1 := by
  unfold round2 jsRound
  rw [div_le_one (by norm_num)]
  have h1 : (⌊q * 100 + 1 / 2⌋ : ℤ) ≤ ⌊(201 / 2 : ℚ)⌋ := Int.floor_le_floor (by linarith)
  have h2 : (⌊(201 / 2 : ℚ)⌋ : ℤ) = 100 := by
    rw [Int.floor_eq_iff]
    norm_num
  exact_mod_cast le_trans h1 (le_of_eq h2)

/-! ## Demonstration inputs used by the witness theorems -/

/-- A concrete, fully-populated POI used to instantiate the universally
quantified theorems. -/
def demoPOI : POI :=
  { id := "demo_1"
    name := "Central Park"
    description := "Beautiful green space perfect for relaxation."
    category := "Parks"
    location := { lat := 28.6139, lng := 77.209, address := "New Delhi" }
    rating := 4.5
    priceLevel := 2
    photos := ["photo1.jpg", "photo2.jpg"]
    openingHours := ["Daily: 6:00 AM - 10:00 PM"]
    website := some "https://example.com/central-park"
    phone := some "+1-555-123-4567"
    weather := some getDefaultWeather
    aiScore := 0
    distanceFromRoute := 2
    closestTo := some .origin }

/-- Concrete filtering criteria used to instantiate the universally
quantified theorems. -/
def demoCriteria : AIFilteringCriteria :=
  { userPreferences := ["nature"]
    weatherConditions := getDefaultWeather
    timeOfDay := .morning
    seasonality := .spring
    travelStyle := .relaxed }

/-! ## C3: the aggregate score -/

/-- C3: for every POI (with a rating in the data model's range), the aggregate
score equals the weighted sum of the six sub-scores with weights 0.25 / 0.30 /
0.15 / 0.10 / 0.15 / 0.05 (summing to 1), rounded to two decimal places, and
the result lies in `[0, 1]`. -/
theorem C3_aggregate_score (poi : POI) (criteria : AIFilteringCriteria)
    (hrating : 0 ≤ poi.rating) :
    (scorePOI poi criteria).aiScore =
      round2 (0.25 * (scorePOI poi criteria).scoreBreakdown.weatherSuitability +
        0.30 * (scorePOI poi criteria).scoreBreakdown.preferenceMatch +
        0.15 * (scorePOI poi criteria).scoreBreakdown.timeRelevance +
        0.10 * (scorePOI poi criteria).scoreBreakdown.seasonalRelevance +
        0.15 * (scorePOI poi criteria).scoreBreakdown.popularityScore +
        0.05 * (scorePOI poi criteria).scoreBreakdown.accessibilityScore) ∧
    scoreWeights.weatherSuitability + scoreWeights.preferenceMatch +
      scoreWeights.timeRelevance + scoreWeights.seasonalRelevance +
      scoreWeights.popularityScore + scoreWeights.accessibilityScore = 1 ∧
    0 ≤ (scorePOI poi criteria).aiScore ∧ (scorePOI poi criteria).aiScore ≤ 1 := by
  have hws0 := calculateWeatherSuitability_nonneg poi criteria.weatherConditions
  have hws1 := calculateWeatherSuitability_le_one poi criteria.weatherConditions
  have hpm0 := calculatePreferenceMatch_nonneg poi criteria.userPreferences
  have hpm1 := calculatePreferenceMatch_le_one poi criteria.userPreferences
  have htr0 := timePreferences_nonneg criteria.timeOfDay poi.category
  have htr1 := timePreferences_le_one criteria.timeOfDay poi.category
  have hsr0 := seasonalPreferences_nonneg criteria.seasonality poi.category
  have hsr1 := seasonalPreferences_le_one criteria.seasonality poi.category
  have hps0 := calculatePopularityScore_nonneg poi hrating
  have hps1 := calculatePopularityScore_le_one poi
  have has0 := calculateAccessibilityScore_nonneg poi
  have has1 := calculateAccessibilityScore_le_one poi
  refine ⟨?_, by norm_num [scoreWeights], ?_, ?_⟩
  · dsimp only [scorePOI, scoreWeights]
    congr 1
    ring
  · dsimp only [scorePOI, scoreWeights, calculateTimeRelevance,
      calculateSeasonalRelevance] at *
    exact round2_nonneg _ (by linarith)
  · dsimp only [scorePOI, scoreWeights, calculateTimeRelevance,
      calculateSeasonalRelevance] at *
    exact round2_le_one _ (by linarith)

/-- Witness for C3 at a concrete POI and concrete criteria. -/
theorem C3_aggregate_score_witness :
    0 ≤ demoPOI.rating ∧
    ((scorePOI demoPOI demoCriteria).aiScore =
      round2 (0.25 * (scorePOI demoPOI demoCriteria).scoreBreakdown.weatherSuitability +
        0.30 * (scorePOI demoPOI demoCriteria).scoreBreakdown.preferenceMatch +
        0.15 * (scorePOI demoPOI demoCriteria).scoreBreakdown.timeRelevance +
        0.10 * (scorePOI demoPOI demoCriteria).scoreBreakdown.seasonalRelevance +
        0.15 * (scorePOI demoPOI demoCriteria).scoreBreakdown.popularityScore +
        0.05 * (scorePOI demoPOI demoCriteria).scoreBreakdown.accessibilityScore) ∧
    scoreWeights.weatherSuitability + scoreWeights.preferenceMatch +
      scoreWeights.timeRelevance + scoreWeights.seasonalRelevance +
      scoreWeights.popularityScore + scoreWeights.accessibilityScore = 1 ∧
    0 ≤ (scorePOI demoPOI demoCriteria).aiScore ∧
      (scorePOI demoPOI demoCriteria).aiScore ≤ 1) :=
  ⟨by norm_num [demoPOI], C3_aggregate_score demoPOI demoCriteria (by norm_num [demoPOI])⟩

/-! ## Deduplication -/

theorem dedupGo_sublist (l : List POI) (seen : List (String × ℤ × ℤ)) :
    (dedupGo l seen).Sublist l := by
  induction l generalizing seen with
  | nil => simp [dedupGo]
  | cons p rest ih =>
    rw [dedupGo]
    split_ifs with hp
    · exact (ih seen).cons p
    · exact (ih _).cons₂ p

theorem dedupGo_keys_nodup (l : List POI) (seen : List (String × ℤ × ℤ)) :
    ((dedupGo l seen).map poiKey).Nodup ∧ ∀ p ∈ dedupGo l seen, poiKey p ∉ seen := by
  induction l generalizing seen with
  | nil => simp [dedupGo]
  | cons p rest ih =>
    by_cases hp : poiKey p ∈ seen
    · rw [dedupGo, if_pos hp]
      obtain ⟨hnd, hmem⟩ := ih seen
      exact ⟨hnd, hmem⟩
    · rw [dedupGo, if_neg hp]
      obtain ⟨hnd, hmem⟩ := ih (poiKey p :: seen)
      refine ⟨?_, ?_⟩
      · simp only [List.map_cons, List.nodup_cons]
        refine ⟨?_, hnd⟩
        intro hcontra
        obtain ⟨q, hq, hqk⟩ := List.mem_map.mp hcontra
        exact hmem q hq (hqk ▸ List.mem_cons_self _ _)
      · intro q hq
        rcases List.mem_cons.mp hq with h | h
        · subst h; exact hp
        · intro hqs
          exact hmem q h (List.mem_cons_of_mem _ hqs)

theorem dedupGo_filter (l : List POI) (seen : List (String × ℤ × ℤ))
    (k : String × ℤ × ℤ) :
    (dedupGo l seen).filter (fun p => decide (poiKey p = k)) =
      if k ∈ seen then [] else (l.filter (fun p => decide (poiKey p = k))).take 1 := by
  induction l generalizing seen with
  | nil => simp [dedupGo]
  | cons p rest ih =>
    by_cases hp : poiKey p ∈ seen
    · rw [dedupGo, if_pos hp, ih]
      by_cases hk : k ∈ seen
      · simp [hk]
      · have hne : ¬(poiKey p = k) := fun h => hk (h ▸ hp)
        rw [if_neg hk, if_neg hk, List.filter_cons_of_neg (by simp [hne])]
    · rw [dedupGo, if_neg hp]
      by_cases hpk : poiKey p = k
      · subst hpk
        rw [List.filter_cons_of_pos (by simp), ih]
        rw [if_neg hp, if_pos (List.mem_cons_self _ _),
          List.filter_cons_of_pos (by simp)]
        rfl
      · rw [List.filter_cons_of_neg (by simp [hpk]), ih]
        by_cases hk : k ∈ seen
        · rw [if_pos hk, if_pos (List.mem_cons_of_mem _ hk)]
        · have hk2 : k ∉ poiKey p :: seen := by
            intro hmem
            rcases List.mem_cons.mp hmem with h | h
            · exact hpk h.symm
            · exact hk h
          rw [if_neg hk2, if_neg hk, List.filter_cons_of_neg (by simp [hpk])]

theorem removeDuplicatePOIs_ne_nil (p : POI) (l : List POI) :
    removeDuplicatePOIs (p :: l) ≠ [] := by
  rw [removeDuplicatePOIs, dedupGo, if_neg (List.not_mem_nil _)]
  exact List.cons_ne_nil _ _

/-! ## C1: deduplication key and first-occurrence semantics -/

/-- C1 counterexample: two POI records whose names differ only in case, at
identical coordinates, are NOT merged by `removeDuplicatePOIs` — the key uses
the raw (unnormalised) name, so both records are kept (the claim asserts
exactly one would be). -/
theorem C1_counterexample :
    strToLower demoPOI.name = strToLower ({ demoPOI with name := "central park" } : POI).name ∧
    demoPOI.name ≠ ({ demoPOI with name := "central park" } : POI).name ∧
    demoPOI.location = ({ demoPOI with name := "central park" } : POI).location ∧
    (removeDuplicatePOIs [demoPOI, { demoPOI with name := "central park" }]).length = 2 :=
  ⟨by decide, by decide, rfl, by rfl⟩

/-- C1 (amended): duplicates are identified by the composite key
(raw name — NOT case/whitespace-normalised — latitude and longitude rounded
to 4 decimals); the first occurrence is kept and later ones dropped: the
output is a subsequence of the input, its keys are pairwise distinct, and for
every key exactly the first input occurrence survives. -/
theorem C1_dedup_amended (pois : List POI) (k : String × ℤ × ℤ) :
    (removeDuplicatePOIs pois).Sublist pois ∧
    ((removeDuplicatePOIs pois).map poiKey).Nodup ∧
    (removeDuplicatePOIs pois).filter (fun p => decide (poiKey p = k)) =
      (pois.filter (fun p => decide (poiKey p = k))).take 1 := by
  refine ⟨dedupGo_sublist pois [], (dedupGo_keys_nodup pois []).1, ?_⟩
  rw [removeDuplicatePOIs, dedupGo_filter, if_neg (List.not_mem_nil _)]

/-! ## Diversity filtering -/

theorem diversityGo_sublist (l : List ScoredPOI) (counts : String → ℕ) (n : ℕ) :
    (diversityGo l counts n).Sublist l := by
  induction l generalizing counts n with
  | nil => simp [diversityGo]
  | cons p rest ih =>
    rw [diversityGo]
    split_ifs with h1 h2 h3
    · exact (List.nil_sublist rest).cons₂ p
    · exact (ih _ _).cons₂ p
    · exact List.nil_sublist _
    · exact (ih _ _).cons p

theorem diversityGo_length (l : List ScoredPOI) (counts : String → ℕ) (n : ℕ)
    (h : n < 15) : (diversityGo l counts n).length + n ≤ 15 := by
  induction l generalizing counts n with
  | nil => simp [diversityGo]; omega
  | cons p rest ih =>
    rw [diversityGo]
    split_ifs with h1 h2 h3
    · simp only [List.length_cons, List.length_nil]
      omega
    · have := ih (fun c => if c = p.category then counts c + 1 else counts c) (n + 1)
        (by omega)
      simp only [List.length_cons]
      omega
    · simp only [List.length_nil]
      omega
    · exact ih counts n h

theorem diversityGo_countP (l : List ScoredPOI) (counts : String → ℕ) (n : ℕ)
    (k : String) (h : counts k ≤ 3) :
    ((diversityGo l counts n).countP (fun p => decide (p.category = k))) + counts k ≤ 3 := by
  induction l generalizing counts n with
  | nil => simp [diversityGo]; omega
  | cons p rest ih =>
    rw [diversityGo]
    split_ifs with h1 h2 h3
    · by_cases hpk : p.category = k
      · subst hpk
        simp [List.countP_cons]
        omega
      · simp [List.countP_cons, hpk]
        omega
    · by_cases hpk : p.category = k
      · subst hpk
        have hih := ih (fun c => if c = p.category then counts c + 1 else counts c)
          (n + 1) (by simp; omega)
        simp at hih
        simp [List.countP_cons]
        omega
      · have hne : ¬(k = p.category) := fun hk => hpk hk.symm
        have hih := ih (fun c => if c = p.category then counts c + 1 else counts c)
          (n + 1) (by simpa [hne] using h)
        simp [hne] at hih
        simp [List.countP_cons, hpk]
        omega
    · simp
      omega
    · exact ih counts n h

theorem diversityGo_take3 (l : List ScoredPOI) (counts : String → ℕ) (n : ℕ)
    (k : String) (hall : ∀ p ∈ l, p.category = k) (h3 : counts k ≤ 3)
    (h15 : n + (3 - counts k) ≤ 15) :
    diversityGo l counts n = l.take (3 - counts k) := by
  induction l generalizing counts n with
  | nil => simp [diversityGo]
  | cons p rest ih =>
    have hpk : p.category = k := hall p (List.mem_cons_self _ _)
    have hrest : ∀ q ∈ rest, q.category = k := fun q hq =>
      hall q (List.mem_cons_of_mem _ hq)
    by_cases h1 : counts p.category < 3
    · have hck : counts k < 3 := hpk ▸ h1
      rw [diversityGo, if_pos h1]
      by_cases h2 : 15 ≤ n + 1
      · rw [if_pos h2]
        have hone : 3 - counts k = 1 := by omega
        rw [hone]
        simp
      · rw [if_neg h2]
        have hcounts : (fun c => if c = p.category then counts c + 1 else counts c) k =
            counts k + 1 := by simp [hpk.symm]
        have ihr := ih (fun c => if c = p.category then counts c + 1 else counts c)
          (n + 1) hrest (by rw [hcounts]; omega) (by rw [hcounts]; omega)
        rw [ihr, hcounts]
        have hm : 3 - counts k = (3 - (counts k + 1)) + 1 := by omega
        rw [hm, List.take_succ_cons]
    · have hck : counts k = 3 := by
        have := hpk ▸ h1
        omega
      rw [diversityGo, if_neg h1]
      have h0 : 3 - counts k = 0 := by omega
      rw [h0, List.take_zero]
      split_ifs with h2
      · rfl
      · have := ih counts n hrest h3 (by omega)
        rw [this, h0, List.take_zero]

/-! ## C4: the Diversity Selector -/

/-- C4: the output of the Diversity Selector is a subsequence of its input
(hence preserves any score-descending order of the input), has at most 15
entries, contains at most 3 POIs of any single category, and on an input whose
POIs all share one category it is exactly the first 3 entries. -/
theorem C4_diversity (pois : List ScoredPOI) (k : String) :
    (applyDiversityFiltering pois).Sublist pois ∧
    (applyDiversityFiltering pois).length ≤ 15 ∧
    ((applyDiversityFiltering pois).countP (fun p => decide (p.category = k))) ≤ 3 ∧
    (pois.Sorted (fun a b => b.aiScore ≤ a.aiScore) →
      (applyDiversityFiltering pois).Sorted (fun a b => b.aiScore ≤ a.aiScore)) ∧
    ((∀ p ∈ pois, p.category = k) → applyDiversityFiltering pois = pois.take 3) := by
  refine ⟨diversityGo_sublist pois _ 0, ?_, ?_, ?_, ?_⟩
  · unfold applyDiversityFiltering
    have := diversityGo_length pois (fun _ => 0) 0 (by norm_num)
    omega
  · unfold applyDiversityFiltering
    have := diversityGo_countP pois (fun _ => 0) 0 k (by norm_num)
    omega
  · intro hsorted
    exact List.Pairwise.sublist (diversityGo_sublist pois _ 0) hsorted
  · intro hall
    exact diversityGo_take3 pois (fun _ => 0) 0 k hall (by norm_num) (by norm_num)

/-- A concrete scored POI used to instantiate the diversity theorems. -/
def demoScoredPOI : ScoredPOI :=
  { toPOI := demoPOI
    scoreBreakdown :=
      { weatherSuitability := 0.9
        preferenceMatch := 0.7
        timeRelevance := 0.9
        seasonalRelevance := 1.0
        popularityScore := 0.86
        accessibilityScore := 0.8 }
    aiRecommendationReason := "Recommended for perfect weather conditions for parks." }

/-- Twenty same-category scored POIs, as in the spec's diversity test. -/
def demoScoredList : List ScoredPOI := List.replicate 20 demoScoredPOI

/-- Witness for C4 at a concrete 20-element single-category input. -/
theorem C4_diversity_witness :
    (∀ p ∈ demoScoredList, p.category = "Parks") ∧
    applyDiversityFiltering demoScoredList = demoScoredList.take 3 ∧
    (applyDiversityFiltering demoScoredList).length ≤ 15 :=
  ⟨by decide, (C4_diversity demoScoredList "Parks").2.2.2.2 (by decide),
    (C4_diversity demoScoredList "Parks").2.1⟩

/-- The breakdown attached by `scorePOI` is exactly the six sub-score
functions. -/
theorem scorePOI_scoreBreakdown (poi : POI) (criteria : AIFilteringCriteria) :
    (scorePOI poi criteria).scoreBreakdown =
      { weatherSuitability := calculateWeatherSuitability poi criteria.weatherConditions
        preferenceMatch := calculatePreferenceMatch poi criteria.userPreferences
        timeRelevance := calculateTimeRelevance poi criteria.timeOfDay
        seasonalRelevance := calculateSeasonalRelevance poi criteria.seasonality
        popularityScore := calculatePopularityScore poi
        accessibilityScore := calculateAccessibilityScore poi } := rfl

/-- The criteria carry `routeInput.weather`, defaulting to the clear-sky
snapshot. -/
theorem buildFilteringCriteria_weatherConditions (routeInput : RouteInput)
    (hour month : ℕ) :
    (buildFilteringCriteria routeInput hour month).weatherConditions =
      routeInput.weather.getD getDefaultWeather := rfl

/-! ## C7: the popularity score -/

/-- Modelled from the claim wording for C7 (refinement target): the rating
contribution is `0.6 × rating/5` whenever the rating field carries a value
(`rating` is a required `number` in `types.ts`, so "absent" cannot occur and
the claimed 0.3 default never fires). -/
def claimPopularityScore (poi : POI) : ℚ :=
  min 1.0 (0.6 * (poi.rating / 5.0) +
    0.2 * (if poi.priceLevel = 2 ∨ poi.priceLevel = 3 then 1.0 else 0.7) +
    0.2 * min 1.0
      ((if jsTruthyStr poi.website then 0.3 else 0) +
       (if jsTruthyStr poi.phone then 0.3 else 0) +
       (if 1 < poi.photos.length then 0.2 else 0) +
       (if poi.openingHours ≠ [] then 0.2 else 0)))

/-- C7 counterexample: at a POI whose rating is `0` (a legal value of the
0–5 range) the code's truthiness guard `if (poi.rating)` takes the
"missing rating" default 0.3, so the computed popularity score (0.7) differs
from the claimed formula value (0.4). -/
theorem C7_counterexample :
    ({ demoPOI with rating := 0 } : POI).rating = 0 ∧
    calculatePopularityScore { demoPOI with rating := 0 } = 0.7 ∧
    claimPopularityScore { demoPOI with rating := 0 } = 0.4 ∧
    calculatePopularityScore { demoPOI with rating := 0 } ≠
      claimPopularityScore { demoPOI with rating := 0 } := by
  have h1 : calculatePopularityScore { demoPOI with rating := 0 } = 0.7 := by
    simp [calculatePopularityScore, demoPOI, jsTruthyStr, min_def]
    norm_num
  have h2 : claimPopularityScore { demoPOI with rating := 0 } = 0.4 := by
    simp [claimPopularityScore, demoPOI, jsTruthyStr, min_def]
    norm_num
  refine ⟨rfl, h1, h2, ?_⟩
  rw [h1, h2]
  norm_num

/-- C7 (amended): the popularity score is
`min 1 (ratingPart + pricePart + 0.2·min 1 bonus)` where the rating part is
`0.6×(rating/5)` for a nonzero rating and 0.3 when the rating is zero (the
falsy stand-in for "absent"), the price part is `0.2×(1.0 if price level is
2 or 3 else 0.7)` for a nonzero price level and 0.14 when it is zero, and the
bonus is 0.3·hasWebsite + 0.3·hasPhone + 0.2·hasMultiplePhotos +
0.2·hasOpeningHours; in particular the fully-populated rating-5 /
price-level-2 POI scores exactly 1.0. -/
theorem C7_popularity_amended (poi : POI) :
    calculatePopularityScore poi =
      min 1.0 ((if poi.rating ≠ 0 then 0.6 * (poi.rating / 5.0) else 0.3) +
        (if poi.priceLevel ≠ 0 then
          0.2 * (if poi.priceLevel = 2 ∨ poi.priceLevel = 3 then 1.0 else 0.7)
         else 0.14) +
        0.2 * min 1.0
          ((if jsTruthyStr poi.website then 0.3 else 0) +
           (if jsTruthyStr poi.phone then 0.3 else 0) +
           (if 1 < poi.photos.length then 0.2 else 0) +
           (if poi.openingHours ≠ [] then 0.2 else 0))) ∧
    calculatePopularityScore { demoPOI with rating := 5 } = 1 := by
  constructor
  · unfold calculatePopularityScore
    rcases eq_or_ne poi.rating 0 with hr | hr <;>
      rcases eq_or_ne poi.priceLevel 0 with hp | hp <;>
      simp only [hr, hp, ne_eq, not_true_eq_false, not_false_eq_true, if_true, if_false,
        ite_true, ite_false] <;>
      ring_nf
  · simp [calculatePopularityScore, demoPOI, jsTruthyStr, min_def]
    norm_num

/-! ## C2: the weather-suitability sub-score -/

/-- Modelled from the claim wording for C2 (refinement target): the blend is
claimed to use the POI's OWN attached weather snapshot. -/
def claimWeatherSuitability (poi : POI) : ℚ :=
  match poi.weather with
  | none => 0.7
  | some w =>
    categoryWeatherSensitivity poi.category * getWeatherSuitabilityScore w +
      (1 - categoryWeatherSensitivity poi.category) * 0.8

/-- Heavy-rain snapshot used by the C2 counterexample. -/
def rainWeather : WeatherData :=
  { temperature := 20, condition := "Heavy Rain", humidity := 80, windSpeed := 10,
    icon := "rain" }

/-- A concrete route input (identical endpoints, no preferences, no attached
weather). -/
noncomputable def demoRoute : RouteInput :=
  { origin := { lat := 0, lng := 0, address := "origin" }
    destination := { lat := 0, lng := 0, address := "destination" }
    departureTime := 0
    preferences := []
    weather := none }

/-- C2 counterexample: a Parks POI carrying a Heavy-Rain snapshot is scored
with the criteria's route-level weather (the clear-sky default), yielding
weatherSuitability 1, whereas the claimed formula over the POI's own snapshot
yields 0.1. -/
theorem C2_counterexample :
    ({ demoPOI with weather := some rainWeather } : POI).weather = some rainWeather ∧
    (scorePOI { demoPOI with weather := some rainWeather }
        (buildFilteringCriteria demoRoute 10 5)).scoreBreakdown.weatherSuitability = 1 ∧
    claimWeatherSuitability { demoPOI with weather := some rainWeather } = 0.1 ∧
    (scorePOI { demoPOI with weather := some rainWeather }
        (buildFilteringCriteria demoRoute 10 5)).scoreBreakdown.weatherSuitability ≠
      claimWeatherSuitability { demoPOI with weather := some rainWeather } := by
  have h1 : (scorePOI { demoPOI with weather := some rainWeather }
      (buildFilteringCriteria demoRoute 10 5)).scoreBreakdown.weatherSuitability = 1 := by
    rw [scorePOI_scoreBreakdown]
    simp only [buildFilteringCriteria_weatherConditions]
    simp [calculateWeatherSuitability, demoRoute, getWeatherSuitabilityScore,
      getDefaultWeather, categoryWeatherSensitivity, conditionScore, demoPOI, min_def]
    norm_num
  have h2 : claimWeatherSuitability { demoPOI with weather := some rainWeather } = 0.1 := by
    simp [claimWeatherSuitability, rainWeather, getWeatherSuitabilityScore,
      categoryWeatherSensitivity, conditionScore, demoPOI, min_def]
    norm_num
  refine ⟨rfl, h1, h2, ?_⟩
  rw [h1, h2]
  norm_num

/-- C2 (amended): for every POI scored against criteria built by
`buildFilteringCriteria`, the weatherSuitability sub-score is 0.7 when the POI
has no attached snapshot; otherwise it is
`sensitivity × suitability(w) + (1 − sensitivity) × 0.8` where `w` is the
CRITERIA's route-level weather (`routeInput.weather`, defaulting to the
clear-sky snapshot) — the POI's own snapshot is only tested for presence —
and sensitivity is the per-category constant (Parks and Outdoor Activities
1.0, Nightlife 0.1, categories outside the table 0.5). -/
theorem C2_weather_suitability_amended (poi : POI) (routeInput : RouteInput)
    (hour month : ℕ) :
    (scorePOI poi (buildFilteringCriteria routeInput hour month)).scoreBreakdown.weatherSuitability =
      (match poi.weather with
       | none => 0.7
       | some _ =>
         categoryWeatherSensitivity poi.category *
           getWeatherSuitabilityScore (routeInput.weather.getD getDefaultWeather) +
           (1 - categoryWeatherSensitivity poi.category) * 0.8) ∧
    categoryWeatherSensitivity "Parks" = 1 ∧
    categoryWeatherSensitivity "Outdoor Activities" = 1 ∧
    categoryWeatherSensitivity "Nightlife" = 0.1 ∧
    (poi.category ∉ ["Parks", "Outdoor Activities", "Scenic Views", "Local Markets",
        "Shopping", "Museums", "Restaurants", "Entertainment", "Historic Sites",
        "Art Galleries", "Coffee Shops", "Nightlife"] →
      categoryWeatherSensitivity poi.category = 0.5) := by
  refine ⟨?_, by norm_num [categoryWeatherSensitivity],
    by norm_num [categoryWeatherSensitivity], by norm_num [categoryWeatherSensitivity], ?_⟩
  · rw [scorePOI_scoreBreakdown]
    show calculateWeatherSuitability poi
      (buildFilteringCriteria routeInput hour month).weatherConditions = _
    rw [buildFilteringCriteria_weatherConditions]
    cases hw : poi.weather with
    | none => simp [calculateWeatherSuitability, hw]
    | some w => simp [calculateWeatherSuitability, hw]
  · intro hnotin
    unfold categoryWeatherSensitivity
    split <;> simp_all

/-- Witness for the amended C2 at a POI whose category is outside the
sensitivity table. -/
theorem C2_weather_suitability_amended_witness :
    ({ demoPOI with category := "Zoo" } : POI).category ∉ ["Parks", "Outdoor Activities",
      "Scenic Views", "Local Markets", "Shopping", "Museums", "Restaurants",
      "Entertainment", "Historic Sites", "Art Galleries", "Coffee Shops", "Nightlife"] ∧
    categoryWeatherSensitivity ({ demoPOI with category := "Zoo" } : POI).category = 0.5 ∧
    (scorePOI { demoPOI with category := "Zoo" }
        (buildFilteringCriteria demoRoute 10 5)).scoreBreakdown.weatherSuitability =
      (match ({ demoPOI with category := "Zoo" } : POI).weather with
       | none => 0.7
       | some _ =>
         categoryWeatherSensitivity ({ demoPOI with category := "Zoo" } : POI).category *
           getWeatherSuitabilityScore (demoRoute.weather.getD getDefaultWeather) +
           (1 - categoryWeatherSensitivity ({ demoPOI with category := "Zoo" } : POI).category) * 0.8) :=
  ⟨by decide,
    (C2_weather_suitability_amended { demoPOI with category := "Zoo" } demoRoute 10 5).2.2.2.2
      (by decide),
    (C2_weather_suitability_amended { demoPOI with category := "Zoo" } demoRoute 10 5).1⟩

/-! ## C9: the POI aggregator entry point -/

theorem generateEnhancedMockPOIs_ne_nil (location : Location ℚ)
    (categories : List String) (r : ℕ → ℚ) :
    generateEnhancedMockPOIs location categories r ≠ [] := by
  unfold generateEnhancedMockPOIs
  have htarget : (if categories.isEmpty then defaultMockCategories else categories) ≠ [] := by
    split_ifs with h
    · simp [defaultMockCategories]
    · simpa [List.isEmpty_iff] using h
  dsimp only
  cases htc : (if categories.isEmpty then defaultMockCategories else categories) with
  | nil => exact absurd htc htarget
  | cons c cs =>
    simp only [List.enum_cons, List.flatMap_cons]
    intro hcontra
    rcases List.append_eq_nil.mp hcontra with ⟨hleft, _⟩
    rw [List.map_eq_nil_iff] at hleft
    have : Int.toNat ⌊r (100 * 0) * 4⌋ % 4 + 2 = 0 := List.range_eq_nil.mp hleft
    omega

/-- C9: `searchPOIsNearLocation` returns at most 20 POIs, never returns an
empty list (the synthesized fallback fills an empty pool), and a failing
source is indistinguishable from a source returning zero POIs — the failure
is absorbed, never propagated. -/
theorem C9_search_resilient (location : Location ℚ) (categories : List String)
    (serp osm foursquare : Except String (List POI)) (r : ℕ → ℚ) :
    (searchPOIsNearLocation location categories serp osm foursquare r).length ≤ 20 ∧
    searchPOIsNearLocation location categories serp osm foursquare r ≠ [] ∧
    (∀ e, searchPOIsNearLocation location categories (.error e) osm foursquare r =
      searchPOIsNearLocation location categories (.ok []) osm foursquare r) ∧
    (∀ e, searchPOIsNearLocation location categories serp (.error e) foursquare r =
      searchPOIsNearLocation location categories serp (.ok []) foursquare r) ∧
    (∀ e, searchPOIsNearLocation location categories serp osm (.error e) r =
      searchPOIsNearLocation location categories serp osm (.ok []) r) := by
  refine ⟨?_, ?_, fun e => rfl, fun e => rfl, fun e => rfl⟩
  · unfold searchPOIsNearLocation
    simp only [List.length_take]
    exact min_le_left _ _
  · unfold searchPOIsNearLocation
    dsimp only
    set allPOIs := sourceContribution serp ++ sourceContribution osm ++
      sourceContribution foursquare with hall
    have hpool : (if allPOIs.isEmpty then generateEnhancedMockPOIs location categories r
        else allPOIs) ≠ [] := by
      split_ifs with h
      · exact generateEnhancedMockPOIs_ne_nil location categories r
      · simpa [List.isEmpty_iff] using h
    cases hp : (if allPOIs.isEmpty then generateEnhancedMockPOIs location categories r
        else allPOIs) with
    | nil => exact absurd hp hpool
    | cons p rest =>
      intro hcontra
      rcases List.take_eq_nil_iff.mp hcontra with h | h
      · norm_num at h
      · exact removeDuplicatePOIs_ne_nil p rest h

/-! ## Geo math -/

theorem arctan_nonneg_of_nonneg (z : ℝ) (hz : 0 ≤ z) : 0 ≤ Real.arctan z := by
  rw [← Real.arctan_zero]
  exact Real.arctan_strictMono.monotone hz

theorem atan2_nonneg (y x : ℝ) (hy : 0 ≤ y) : 0 ≤ atan2 y x := by
  unfold atan2
  split_ifs with h1 h2 h3 h4 <;>
    first
    | exact arctan_nonneg_of_nonneg _ (div_nonneg hy h1.le)
    | exact absurd hy (by assumption)
    | linarith [Real.pi_pos, Real.neg_pi_div_two_lt_arctan (y / x)]

theorem calculateDistance_nonneg (lat1 lng1 lat2 lng2 : ℝ) :
    0 ≤ calculateDistance lat1 lng1 lat2 lng2 := by
  unfold calculateDistance
  dsimp only
  have h := atan2_nonneg (Real.sqrt (Real.sin (toRadians (lat2 - lat1) / 2) *
      Real.sin (toRadians (lat2 - lat1) / 2) +
      Real.cos (toRadians lat1) * Real.cos (toRadians lat2) *
        Real.sin (toRadians (lng2 - lng1) / 2) * Real.sin (toRadians (lng2 - lng1) / 2)))
    (Real.sqrt (1 - (Real.sin (toRadians (lat2 - lat1) / 2) *
      Real.sin (toRadians (lat2 - lat1) / 2) +
      Real.cos (toRadians lat1) * Real.cos (toRadians lat2) *
        Real.sin (toRadians (lng2 - lng1) / 2) * Real.sin (toRadians (lng2 - lng1) / 2))))
    (Real.sqrt_nonneg _)
  linarith

theorem calculateDistance_comm (lat1 lng1 lat2 lng2 : ℝ) :
    calculateDistance lat1 lng1 lat2 lng2 = calculateDistance lat2 lng2 lat1 lng1 := by
  unfold calculateDistance toRadians
  dsimp only
  have hlat : Real.sin ((lat1 - lat2) * (Real.pi / 180) / 2) =
      -Real.sin ((lat2 - lat1) * (Real.pi / 180) / 2) := by
    rw [show (lat1 - lat2) * (Real.pi / 180) / 2 =
      -((lat2 - lat1) * (Real.pi / 180) / 2) by ring, Real.sin_neg]
  have hlng : Real.sin ((lng1 - lng2) * (Real.pi / 180) / 2) =
      -Real.sin ((lng2 - lng1) * (Real.pi / 180) / 2) := by
    rw [show (lng1 - lng2) * (Real.pi / 180) / 2 =
      -((lng2 - lng1) * (Real.pi / 180) / 2) by ring, Real.sin_neg]
  rw [hlat, hlng]
  ring_nf

theorem calculateDistance_self_zero (lat1 lng1 lat2 lng2 : ℝ) (hlat : lat1 = lat2)
    (hlng : lng1 = lng2) : calculateDistance lat1 lng1 lat2 lng2 = 0 := by
  subst hlat
  subst hlng
  unfold calculateDistance toRadians
  dsimp only
  simp only [sub_self, zero_mul, zero_div, Real.sin_zero, mul_zero, zero_add, add_zero]
  rw [Real.sqrt_zero, sub_zero, Real.sqrt_one]
  unfold atan2
  rw [if_pos (by norm_num : (0:ℝ) < 1), zero_div, Real.arctan_zero]
  ring

/-! ## C6: properties of the haversine distance -/

/-- North-pole location used by the C6 counterexample. -/
noncomputable def poleA : Location ℝ := { lat := 90, lng := 0, address := "pole A" }

/-- Second north-pole location (different longitude). -/
noncomputable def poleB : Location ℝ := { lat := 90, lng := 10, address := "pole B" }

theorem calculateDistance_pole_zero : calculateDistance 90 0 90 10 = 0 := by
  unfold calculateDistance toRadians
  dsimp only
  have hcos : Real.cos ((90 : ℝ) * (Real.pi / 180)) = 0 := by
    rw [show (90 : ℝ) * (Real.pi / 180) = Real.pi / 2 by ring, Real.cos_pi_div_two]
  rw [hcos]
  simp only [sub_self, zero_mul, zero_div, Real.sin_zero, mul_zero, zero_add, add_zero]
  rw [Real.sqrt_zero, sub_zero, Real.sqrt_one]
  unfold atan2
  rw [if_pos (by norm_num : (0 : ℝ) < 1), zero_div, Real.arctan_zero]
  ring

/-- C6 counterexample: two Locations with distinct coordinates (both at
latitude 90, longitudes 0 and 10) have haversine distance exactly 0, so
"distance zero iff identical coordinates" fails in the only-if direction. -/
theorem C6_counterexample :
    poleA.lng ≠ poleB.lng ∧ routeDistance poleA poleB = 0 := by
  constructor
  · show (0 : ℝ) ≠ 10
    norm_num
  · show calculateDistance 90 0 90 10 = 0
    exact calculateDistance_pole_zero

/-- C6 (amended): the haversine distance is symmetric, never negative, and is
zero whenever the two Locations have identical coordinates; the converse
(zero only for identical coordinates) does not hold — two distinct longitudes
at latitude 90 are at distance 0. -/
theorem C6_distance_amended (a b : Location ℝ) :
    routeDistance a b = routeDistance b a ∧
    0 ≤ routeDistance a b ∧
    (a.lat = b.lat → a.lng = b.lng → routeDistance a b = 0) :=
  ⟨calculateDistance_comm _ _ _ _, calculateDistance_nonneg _ _ _ _,
    fun h1 h2 => calculateDistance_self_zero _ _ _ _ h1 h2⟩

/-- Witness for the amended C6 at concrete Locations. -/
theorem C6_distance_amended_witness :
    poleA.lat = poleA.lat ∧ routeDistance poleA poleA = 0 ∧
    0 ≤ routeDistance poleA poleB :=
  ⟨rfl, (C6_distance_amended poleA poleA).2.2 rfl rfl,
    (C6_distance_amended poleA poleB).2.1⟩

/-! ## The Checkpoint Planner -/

theorem two_le_numberOfCheckpoints (route : RouteInput) :
    2 ≤ numberOfCheckpoints route := by
  unfold numberOfCheckpoints
  exact le_max_left _ _

theorem generateRouteCheckpoints_length (route : RouteInput) :
    (generateRouteCheckpoints route).length = numberOfCheckpoints route := by
  simp [generateRouteCheckpoints]

theorem checkpoints_get (route : RouteInput) (i : ℕ)
    (h : i < numberOfCheckpoints route) :
    (generateRouteCheckpoints route).get? i = some (mkCheckpoint route i) := by
  unfold generateRouteCheckpoints
  rw [List.get?_map, List.get?_range h]
  rfl

/-! ## C5: the checkpoint sequence -/

/-- C5: the Checkpoint Planner emits exactly
`max(2, ⌊D / 50⌋)` checkpoints; checkpoint `i` sits at the linear
interpolation of origin and destination at `t = i / (count − 1)`, with
`distanceFromStart = t·D` and `estimatedTime = departureTime + t·D/80` hours
(in epoch milliseconds); the first checkpoint carries the origin's
coordinates and the last the destination's. -/
theorem C5_checkpoints (route : RouteInput) :
    (generateRouteCheckpoints route).length = numberOfCheckpoints route ∧
    numberOfCheckpoints route =
      max 2 (Int.toNat ⌊routeDistance route.origin route.destination / 50⌋) ∧
    (∀ i, i < numberOfCheckpoints route →
      (generateRouteCheckpoints route).get? i = some
        { location :=
            { lat := route.origin.lat + (route.destination.lat - route.origin.lat) *
                ((i : ℝ) / ((numberOfCheckpoints route : ℝ) - 1))
              lng := route.origin.lng + (route.destination.lng - route.origin.lng) *
                ((i : ℝ) / ((numberOfCheckpoints route : ℝ) - 1))
              address := "Checkpoint " ++ toString (i + 1) }
          distanceFromStart := ((i : ℝ) / ((numberOfCheckpoints route : ℝ) - 1)) *
            routeDistance route.origin route.destination
          estimatedTime := route.departureTime +
            ((i : ℝ) / ((numberOfCheckpoints route : ℝ) - 1)) *
              routeDistance route.origin route.destination / 80 * (60 * 60 * 1000) }) ∧
    (∀ cp, (generateRouteCheckpoints route).get? 0 = some cp →
      cp.location.lat = route.origin.lat ∧ cp.location.lng = route.origin.lng ∧
      cp.distanceFromStart = 0) ∧
    (∀ cp, (generateRouteCheckpoints route).get? (numberOfCheckpoints route - 1) = some cp →
      cp.location.lat = route.destination.lat ∧
      cp.location.lng = route.destination.lng ∧
      cp.distanceFromStart = routeDistance route.origin route.destination) := by
  have hn2 := two_le_numberOfCheckpoints route
  refine ⟨generateRouteCheckpoints_length route, rfl, ?_, ?_, ?_⟩
  · intro i hi
    rw [checkpoints_get route i hi]
    rfl
  · intro cp hcp
    rw [checkpoints_get route 0 (by omega)] at hcp
    injection hcp with hcp
    subst hcp
    unfold mkCheckpoint
    dsimp only
    norm_num
  · intro cp hcp
    rw [checkpoints_get route _ (by omega)] at hcp
    injection hcp with hcp
    subst hcp
    unfold mkCheckpoint
    dsimp only
    have hne : ((numberOfCheckpoints route : ℝ) - 1) ≠ 0 := by
      have h2r : (2 : ℝ) ≤ (numberOfCheckpoints route : ℝ) := by exact_mod_cast hn2
      linarith
    have hcast : ((numberOfCheckpoints route - 1 : ℕ) : ℝ) =
        (numberOfCheckpoints route : ℝ) - 1 := by
      push_cast [Nat.cast_sub (by omega : 1 ≤ numberOfCheckpoints route)]
      ring
    rw [hcast, div_self hne]
    refine ⟨by ring, by ring, by ring⟩

/-- Witness for C5 at a concrete route and index 0. -/
theorem C5_checkpoints_witness :
    0 < numberOfCheckpoints demoRoute ∧
    (generateRouteCheckpoints demoRoute).get? 0 = some (mkCheckpoint demoRoute 0) ∧
    (mkCheckpoint demoRoute 0).location.lat = demoRoute.origin.lat ∧
    (mkCheckpoint demoRoute 0).distanceFromStart = 0 := by
  have h0 : 0 < numberOfCheckpoints demoRoute := by
    have := two_le_numberOfCheckpoints demoRoute
    omega
  have hget := (C5_checkpoints demoRoute).2.2.1 0 h0
  have hfirst := (C5_checkpoints demoRoute).2.2.2.1 (mkCheckpoint demoRoute 0) hget
  exact ⟨h0, hget, hfirst.1, hfirst.2.2⟩

/-! ## C8: degenerate (zero-distance) routes -/

/-- C8: when origin and destination have identical coordinates the route
distance is 0, the planner emits exactly 2 checkpoints, the interpolation
divisor `count − 1` is 1 (never 0), and both checkpoints carry the origin's
coordinates. -/
theorem C8_zero_distance_route (route : RouteInput)
    (hlat : route.origin.lat = route.destination.lat)
    (hlng : route.origin.lng = route.destination.lng) :
    routeDistance route.origin route.destination = 0 ∧
    numberOfCheckpoints route = 2 ∧
    ((numberOfCheckpoints route : ℝ) - 1) ≠ 0 ∧
    (generateRouteCheckpoints route).length = 2 ∧
    ∀ cp ∈ generateRouteCheckpoints route,
      cp.location.lat = route.origin.lat ∧ cp.location.lng = route.origin.lng := by
  have hD : routeDistance route.origin route.destination = 0 :=
    calculateDistance_self_zero _ _ _ _ hlat hlng
  have hn : numberOfCheckpoints route = 2 := by
    unfold numberOfCheckpoints
    rw [hD]
    norm_num
  refine ⟨hD, hn, by rw [hn]; norm_num, by rw [generateRouteCheckpoints_length, hn], ?_⟩
  intro cp hcp
  unfold generateRouteCheckpoints at hcp
  rw [List.mem_map] at hcp
  obtain ⟨i, _, hmk⟩ := hcp
  subst hmk
  unfold mkCheckpoint
  dsimp only
  constructor
  · rw [← hlat]
    ring
  · rw [← hlng]
    ring

/-- Witness for C8 at a concrete route with coinciding endpoints. -/
theorem C8_zero_distance_route_witness :
    demoRoute.origin.lat = demoRoute.destination.lat ∧
    demoRoute.origin.lng = demoRoute.destination.lng ∧
    (numberOfCheckpoints demoRoute = 2 ∧
      (generateRouteCheckpoints demoRoute).length = 2) :=
  ⟨rfl, rfl,
    ⟨(C8_zero_distance_route demoRoute rfl rfl).2.1,
     (C8_zero_distance_route demoRoute rfl rfl).2.2.2.1⟩⟩

/-! ## C10: monotonicity along the checkpoint sequence -/

/-- C10: along the checkpoint sequence, `distanceFromStart` is non-decreasing
in the index (strictly increasing when the route distance is positive) and
`estimatedTime` is at or after the departure time and non-decreasing in the
index. -/
theorem C10_checkpoint_monotone (route : RouteInput) (i j : ℕ) (hij : i ≤ j)
    (hj : j < numberOfCheckpoints route) :
    ∀ ci cj, (generateRouteCheckpoints route).get? i = some ci →
      (generateRouteCheckpoints route).get? j = some cj →
      ci.distanceFromStart ≤ cj.distanceFromStart ∧
      (0 < routeDistance route.origin route.destination → i < j →
        ci.distanceFromStart < cj.distanceFromStart) ∧
      route.departureTime ≤ ci.estimatedTime ∧
      ci.estimatedTime ≤ cj.estimatedTime := by
  intro ci cj hci hcj
  rw [checkpoints_get route i (lt_of_le_of_lt hij hj)] at hci
  rw [checkpoints_get route j hj] at hcj
  injection hci with hci
  injection hcj with hcj
  subst hci
  subst hcj
  unfold mkCheckpoint
  dsimp only
  have hn2 : (2 : ℝ) ≤ (numberOfCheckpoints route : ℝ) := by
    exact_mod_cast two_le_numberOfCheckpoints route
  have hden : (0 : ℝ) < (numberOfCheckpoints route : ℝ) - 1 := by linarith
  have hD : 0 ≤ routeDistance route.origin route.destination :=
    calculateDistance_nonneg _ _ _ _
  have ht : (i : ℝ) / ((numberOfCheckpoints route : ℝ) - 1) ≤
      (j : ℝ) / ((numberOfCheckpoints route : ℝ) - 1) :=
    (div_le_div_right hden).mpr (by exact_mod_cast hij)
  refine ⟨mul_le_mul_of_nonneg_right ht hD, ?_, ?_, ?_⟩
  · intro hDpos hlt
    have ht' : (i : ℝ) / ((numberOfCheckpoints route : ℝ) - 1) <
        (j : ℝ) / ((numberOfCheckpoints route : ℝ) - 1) :=
      (div_lt_div_right hden).mpr (by exact_mod_cast hlt)
    exact mul_lt_mul_of_pos_right ht' hDpos
  · have hti : (0 : ℝ) ≤ (i : ℝ) / ((numberOfCheckpoints route : ℝ) - 1) :=
      div_nonneg (by positivity) hden.le
    have h1 : (0 : ℝ) ≤ (i : ℝ) / ((numberOfCheckpoints route : ℝ) - 1) *
        routeDistance route.origin route.destination := mul_nonneg hti hD
    have h2 : (0 : ℝ) ≤ (i : ℝ) / ((numberOfCheckpoints route : ℝ) - 1) *
        routeDistance route.origin route.destination / 80 :=
      div_nonneg h1 (by norm_num)
    nlinarith
  · have hmul : (i : ℝ) / ((numberOfCheckpoints route : ℝ) - 1) *
        routeDistance route.origin route.destination ≤
      (j : ℝ) / ((numberOfCheckpoints route : ℝ) - 1) *
        routeDistance route.origin route.destination :=
      mul_le_mul_of_nonneg_right ht hD
    linarith

/-- Witness for C10 at a concrete route and the index pair (0, 1). -/
theorem C10_checkpoint_monotone_witness :
    (0 : ℕ) ≤ 1 ∧ 1 < numberOfCheckpoints demoRoute ∧
    ((mkCheckpoint demoRoute 0).distanceFromStart ≤
        (mkCheckpoint demoRoute 1).distanceFromStart ∧
      demoRoute.departureTime ≤ (mkCheckpoint demoRoute 0).estimatedTime) := by
  have h1 : 1 < numberOfCheckpoints demoRoute := by
    have := two_le_numberOfCheckpoints demoRoute
    omega
  have hres := C10_checkpoint_monotone demoRoute 0 1 (by omega) h1
    (mkCheckpoint demoRoute 0) (mkCheckpoint demoRoute 1)
    (checkpoints_get demoRoute 0 (by omega)) (checkpoints_get demoRoute 1 h1)
  exact ⟨by omega, h1, hres.1, hres.2.2.1⟩
